import Mathlib

/-!
# Verification of the TikTok OAuth2 backend credential lifecycle

Shallow embedding of the credential lifecycle subsystem of the
Light-TikTok-OAuth2-Backend repository:

* `SecureTokenStorage` (src/tokenStorage.js): `encrypt`, `decrypt`,
  `saveTokens`, `loadTokens` over an encrypted single-record file store.
* The lifecycle manager (src/index.js): the `/auth/login` handler
  (`beginAuthorization`), the `/auth/callback` handler
  (`completeAuthorization`) and `getValidAccessToken`.

External effects are made explicit parameters: the randomness consumed by
`crypto.randomBytes` (the fresh IV, the PKCE verifier), the wall clock
(`Date.now()`), the JSON body of the upstream token endpoint's response
(`none` models the `axios` promise rejecting, i.e. a thrown exception),
and whether `fs.writeFileSync` succeeds.

The symmetric cipher is Node's `crypto.createCipher('aes-256-cbc', key)` /
`crypto.createDecipher('aes-256-cbc', key)`.  These are external library
functions, modelled symbolically (Dolev-Yao style) by the free datatype
`Ciphertext`: encryption under a key is a deterministic, injective
function of the key and the plaintext alone.  This is faithful to the
source in the one respect that matters here: `createCipher` derives both
the AES key and the effective IV from the password, so the `iv` value
generated by `SecureTokenStorage.encrypt` is NOT an input to the cipher,
and `createDecipher` likewise never consumes the stored `iv`.
-/

/-- JavaScript string truthiness of a possibly-`undefined` string value:
`undefined` and `""` are falsy, every other string is truthy.  Used for the
source's `if (!code)`, `if (!codeVerifier)`, `if (tokenRes.data.error)` and
`if (!tokenRes.data.access_token)` checks. -/
def truthyStr : Option String → Bool
  | some s => s != ""
  | none => false

/-- The persisted credential record (the object passed to
`tokenStorage.saveTokens` in src/index.js).  Each field is optional because
JavaScript destructuring of a response body yields `undefined` for absent
fields, and the code passes those values straight through.  `expires_at` is
`none` when `expires_in` was `undefined` (then `Date.now() + undefined*1000`
is `NaN`, whose JSON image is `null`; both compare as false in
`getValidAccessToken`'s expiry test, exactly like the `none` branch of
`notExpiredYet` below). -/
structure CredentialRecord where
  access_token : Option String
  refresh_token : Option String
  expires_at : Option Int
deriving DecidableEq

/-- A record is fully populated: all three fields present and non-empty
(spec section 3 invariant). -/
def CredentialRecord.wellFormed (r : CredentialRecord) : Bool :=
  truthyStr r.access_token && truthyStr r.refresh_token && r.expires_at.isSome

/-- The plaintext handed to the cipher: `JSON.stringify` of a credential
record, or any other string (whose `JSON.parse` image is not a record, so
parsing it throws and `decrypt`'s catch returns `null`). -/
inductive Plaintext
  | record (r : CredentialRecord)
  | raw (s : String)
deriving DecidableEq

/-- Symbolic ciphertexts of the external cipher
`crypto.createCipher('aes-256-cbc', key)`: `enc key pt` is the (hex)
ciphertext of plaintext `pt` under password `key`; `junk s` is any hex
string that is not a valid ciphertext under any password in play.  The
cipher is deterministic in `(key, pt)`: `createCipher` derives the AES key
and the effective IV from the password alone, with no per-call randomness. -/
inductive Ciphertext
  | enc (key : String) (pt : Plaintext)
  | junk (s : String)
deriving DecidableEq

/-- Model of `crypto.createCipher('aes-256-cbc', key)` applied to a
plaintext: a deterministic function of the password and the plaintext. -/
def cipherEncrypt (key : String) (pt : Plaintext) : Ciphertext :=
  Ciphertext.enc key pt

/-- Model of `crypto.createDecipher('aes-256-cbc', key)` applied to a
ciphertext: inverts `cipherEncrypt` under the same password; under a wrong
password or on junk bytes, `decipher.final` throws, modelled as `none`. -/
def cipherDecrypt (key : String) : Ciphertext → Option Plaintext
  | Ciphertext.enc k pt => if k = key then some pt else none
  | Ciphertext.junk _ => none

/-- The object `SecureTokenStorage.encrypt` returns and `saveTokens`
writes to disk as JSON: `{ iv, encrypted }`. -/
structure Envelope where
  iv : String
  encrypted : Ciphertext
deriving DecidableEq

/-- Content of the token file: either the JSON serialization of an
envelope, or garbage bytes that `JSON.parse` in `loadTokens` rejects by
throwing. -/
inductive FileContent
  | envelope (env : Envelope)
  | garbage (s : String)
deriving DecidableEq

/-- The durable storage underneath one `SecureTokenStorage` instance:
`file = none` models `fs.existsSync(this.filePath)` being false. -/
structure StorageState where
  file : Option FileContent
deriving DecidableEq

namespace SecureTokenStorage

/-- `SecureTokenStorage.encrypt` (src/tokenStorage.js lines 22-33): draws a
fresh random `iv` from `crypto.randomBytes(16)` (the `iv` argument here is
that randomness), encrypts `JSON.stringify(data)` with
`crypto.createCipher('aes-256-cbc', this.encryptionKey)`, and returns
`{ iv: iv.toString('hex'), encrypted }`.  Note that `encrypted` is computed
by `createCipher`, which takes only the password: the generated `iv` is
stored but never fed to the cipher. -/
def encrypt (key : String) (iv : String) (data : CredentialRecord) : Envelope :=
  { iv := iv, encrypted := cipherEncrypt key (Plaintext.record data) }

/-- `SecureTokenStorage.decrypt` (src/tokenStorage.js lines 36-48): decrypts
`encryptedData.encrypted` with `createDecipher('aes-256-cbc', key)` and
`JSON.parse`s the result; any failure is caught and converted to `null`.
The stored `encryptedData.iv` is never read. -/
def decrypt (key : String) (encryptedData : Envelope) : Option CredentialRecord :=
  match cipherDecrypt key encryptedData.encrypted with
  | some (Plaintext.record r) => some r
  | some (Plaintext.raw _) => none
  | none => none

/-- `SecureTokenStorage.saveTokens` (src/tokenStorage.js lines 51-61):
encrypts the tokens and writes `JSON.stringify(envelope)` to the file,
returning `true`; if `fs.writeFileSync` throws (`writeOk = false`), the
exception is caught, the file is unchanged and `false` is returned. -/
def saveTokens (key : String) (iv : String) (writeOk : Bool)
    (tokens : CredentialRecord) (st : StorageState) : StorageState × Bool :=
  if writeOk then
    ({ file := some (FileContent.envelope (encrypt key iv tokens)) }, true)
  else
    (st, false)

/-- `SecureTokenStorage.loadTokens` (src/tokenStorage.js lines 64-85):
returns `null` when the file does not exist; otherwise `JSON.parse`s the
file content (a throw on garbage is caught, returning `null`) and decrypts
it, returning `null` when decryption fails.  Total: no outcome raises to
the caller. -/
def loadTokens (key : String) (st : StorageState) : Option CredentialRecord :=
  match st.file with
  | none => none
  | some (FileContent.garbage _) => none
  | some (FileContent.envelope env) => decrypt key env

end SecureTokenStorage

/-- JSON body of a 2xx response from the upstream token endpoint
`https://open.tiktokapis.com/v2/oauth/token/` (used for both the
authorization-code and the refresh-token grant).  Absent fields are
`none`. -/
structure TokenResponse where
  error : Option String
  error_description : Option String
  access_token : Option String
  refresh_token : Option String
  expires_in : Option Int
deriving DecidableEq

/-- Process state of src/index.js: the module-level `let codeVerifier =
null` slot plus the `tokenStorage` instance's durable file. -/
structure AppState where
  codeVerifier : Option String
  storage : StorageState
deriving DecidableEq

/-- Model of the external `crypto.createHash('sha256')...digest('hex')`
used by `generatePKCE`: an injective deterministic function of the
verifier, standing for the lowercase-hex SHA-256 digest. -/
def sha256hex (s : String) : String := "sha256hex:" ++ s

/-- `generatePKCE` (src/index.js lines 35-43): the `verifier` argument is
the randomness `generateRandomString(64)` produced; the challenge is the
hex SHA-256 digest of the verifier. -/
def generatePKCE (verifier : String) : String × String :=
  (verifier, sha256hex verifier)

/-- The `GET /auth/login` handler (src/index.js lines 73-90,
`beginAuthorization` in the spec): generates a PKCE pair, overwrites the
single `codeVerifier` slot with the fresh verifier, and redirects to the
authorization URL embedding the challenge.  Returns the new state and the
redirect URL. -/
def handleLogin (verifier : String) (st : AppState) : AppState × String :=
  let pkce := generatePKCE verifier
  ({ st with codeVerifier := some pkce.1 },
   "https://www.tiktok.com/v2/auth/authorize/?code_challenge=" ++ pkce.2)

/-- Outcome of the `GET /auth/callback` handler, by the HTTP response it
sends.  Constructors follow the spec's error taxonomy:
`missingCode` = 400 "Missing code", `missingVerifier` = 400 "No code
verifier found", `upstreamRejected` = 400 "Error: ..." (error field in the
token response), `upstreamMalformed` = 400 "Access token not received",
`exchangeThrew` = 500 "Token exchange failed" (the `axios` promise
rejected), `success` = the 200 page. -/
inductive CallbackResult
  | missingCode
  | missingVerifier
  | upstreamRejected (e d : Option String)
  | upstreamMalformed
  | exchangeThrew
  | success
deriving DecidableEq

/-- Result of one `/auth/callback` invocation: the new process state, the
HTTP outcome, and the `code_verifier` field of the token request that was
sent upstream (`none` when the handler returned before any request). -/
structure CallbackOutput where
  state : AppState
  result : CallbackResult
  sentVerifier : Option String
deriving DecidableEq

/-- The `GET /auth/callback` handler (src/index.js lines 93-161,
`completeAuthorization` in the spec).  Parameters: `code` is
`req.query.code`; `resp` is the token endpoint's JSON body (`none` when
`axios.post` throws); `now` is `Date.now()` at the save; `iv` is the
randomness `SecureTokenStorage.encrypt` draws; `writeOk` is whether the
file write succeeds.  Faithful control flow: `if (!code)` then 400
"Missing code"; `if (!codeVerifier)` then 400 "No code verifier found";
then the exchange; `if (tokenRes.data.error)` then 400;
`if (!tokenRes.data.access_token)` then 400; otherwise save
`{ access_token, refresh_token, expires_at: Date.now() + expires_in*1000 }`
(the return value of `saveTokens` is ignored) and only then
`codeVerifier = null`. -/
def handleCallback (encKey : String) (code : Option String)
    (resp : Option TokenResponse) (now : Int) (iv : String) (writeOk : Bool)
    (st : AppState) : CallbackOutput :=
  if truthyStr code = false then
    { state := st, result := CallbackResult.missingCode, sentVerifier := none }
  else if truthyStr st.codeVerifier = false then
    { state := st, result := CallbackResult.missingVerifier, sentVerifier := none }
  else
    match resp with
    | none =>
        { state := st, result := CallbackResult.exchangeThrew,
          sentVerifier := st.codeVerifier }
    | some data =>
        if truthyStr data.error then
          { state := st,
            result := CallbackResult.upstreamRejected data.error data.error_description,
            sentVerifier := st.codeVerifier }
        else if truthyStr data.access_token = false then
          { state := st, result := CallbackResult.upstreamMalformed,
            sentVerifier := st.codeVerifier }
        else
          let record : CredentialRecord :=
            { access_token := data.access_token
              refresh_token := data.refresh_token
              expires_at := data.expires_in.map (fun e => now + e * 1000) }
          let saved := SecureTokenStorage.saveTokens encKey iv writeOk record st.storage
          { state := { codeVerifier := none, storage := saved.1 },
            result := CallbackResult.success,
            sentVerifier := st.codeVerifier }

/-- The expiry test `Date.now() < tokens.expires_at - 60 * 1000`
(src/index.js line 170).  When `expires_at` is `NaN` (saved as
`undefined + ...`) or `null` (its JSON image), the JavaScript comparison
evaluates to false, i.e. the token counts as expired: the `none` branch. -/
def notExpiredYet (expires_at : Option Int) (now : Int) : Bool :=
  match expires_at with
  | some t => now < t - 60 * 1000
  | none => false

/-- Outcome of `getValidAccessToken`: `noTokens` = the thrown
"No tokens available" error; `cached` = returned `tokens.access_token`
without network I/O; `refreshed` = returned the `access_token` field of
the refresh response (possibly `undefined`); `refreshThrew` = the `axios`
refresh call rejected and the exception propagated to the caller. -/
inductive TokenResult
  | noTokens
  | cached (t : Option String)
  | refreshed (t : Option String)
  | refreshThrew
deriving DecidableEq

/-- Result of one `getValidAccessToken` call: new state, outcome, and the
number of network calls made to the token endpoint (0 or 1). -/
structure RefreshOutput where
  state : AppState
  result : TokenResult
  networkCalls : Nat
deriving DecidableEq

/-- `getValidAccessToken` (src/index.js lines 164-192).  Parameters: `now`
is `Date.now()` at the expiry test, `now2` at the save after the refresh;
`refreshResp` is the refresh exchange's JSON body (`none` when `axios.post`
rejects); `iv`/`writeOk` as in `handleCallback`.  Faithful control flow:
load tokens (throw if `null`); return `tokens.access_token` if
`Date.now() < expires_at - 60*1000`; otherwise one refresh exchange, then
— with no check of `refreshRes.data.error` and no check that
`access_token` is present — destructure the response, save
`{ access_token, refresh_token, expires_at: Date.now() + expires_in*1000 }`
and return `access_token`. -/
def getValidAccessToken (encKey : String) (now now2 : Int)
    (refreshResp : Option TokenResponse) (iv : String) (writeOk : Bool)
    (st : AppState) : RefreshOutput :=
  match SecureTokenStorage.loadTokens encKey st.storage with
  | none => { state := st, result := TokenResult.noTokens, networkCalls := 0 }
  | some tokens =>
      if notExpiredYet tokens.expires_at now then
        { state := st, result := TokenResult.cached tokens.access_token,
          networkCalls := 0 }
      else
        match refreshResp with
        | none =>
            { state := st, result := TokenResult.refreshThrew, networkCalls := 1 }
        | some data =>
            let record : CredentialRecord :=
              { access_token := data.access_token
                refresh_token := data.refresh_token
                expires_at := data.expires_in.map (fun e => now2 + e * 1000) }
            let saved := SecureTokenStorage.saveTokens encKey iv writeOk record st.storage
            { state := { st with storage := saved.1 },
              result := TokenResult.refreshed data.access_token,
              networkCalls := 1 }

/-- Replaces the `iv` field of the persisted envelope with a new value,
leaving the `encrypted` field (and non-envelope content) intact.  This is
the tampering operation claim C10 quantifies over. -/
def tamperIV (newIv : String) : StorageState → StorageState
  | { file := some (FileContent.envelope env) } =>
      { file := some (FileContent.envelope { env with iv := newIv }) }
  | st => st

/-! ## Helper lemmas (shared) -/

/-- In every branch of the callback handler, the verifier slot ends up
`none` exactly when the handler reached the success page; every failure
branch returns before the `codeVerifier = null` line, leaving the slot
unchanged. -/
theorem callback_codeVerifier_eq (encKey : String) (code : Option String)
    (resp : Option TokenResponse) (now : Int) (iv : String) (writeOk : Bool)
    (st : AppState) :
    (handleCallback encKey code resp now iv writeOk st).state.codeVerifier =
      (if (handleCallback encKey code resp now iv writeOk st).result =
          CallbackResult.success
       then none else st.codeVerifier) := by
  unfold handleCallback
  split
  · simp
  · split
    · simp
    · cases resp with
      | none => simp
      | some data =>
          simp only []
          split
          · simp
          · split <;> simp

/-- A falsy `code` query parameter short-circuits the callback handler to
the 400 "Missing code" response. -/
theorem callback_falsy_code_missingCode (encKey : String) (code : Option String)
    (resp : Option TokenResponse) (now : Int) (iv : String) (writeOk : Bool)
    (st : AppState) (hc : truthyStr code = false) :
    handleCallback encKey code resp now iv writeOk st =
      { state := st, result := CallbackResult.missingCode, sentVerifier := none } := by
  unfold handleCallback
  simp [hc]

/-- A truthy `code` together with a success result forces the `code` check
to have passed: the handler cannot reach the success branch with a falsy
`code`. -/
theorem callback_success_truthy_code (encKey : String) (code : Option String)
    (resp : Option TokenResponse) (now : Int) (iv : String) (writeOk : Bool)
    (st : AppState)
    (h : (handleCallback encKey code resp now iv writeOk st).result =
      CallbackResult.success) :
    truthyStr code = true := by
  by_contra hc
  rw [callback_falsy_code_missingCode encKey code resp now iv writeOk st
    (by revert hc; cases truthyStr code <;> simp)] at h
  exact absurd h (by simp)

/-! ## Claim C4 -/

/-- A well-formed record used as the fixture for claim C4. -/
def rec4 : CredentialRecord :=
  { access_token := some "act4", refresh_token := some "ref4",
    expires_at := some 1700000000000 }

/-- C4 (code_bug evidence): `SecureTokenStorage.encrypt` does generate and
store a fresh random IV, but the `encrypted` field is a function of the
key and the plaintext alone: two saves of the same record under the same
key, with distinct freshly drawn IVs, produce byte-identical ciphertexts.
The cipher effectively reuses the password-derived IV on every save, so
the claimed "ciphertext depends on the generated IV / two runs differ" is
false of the code. -/
theorem encrypted_field_independent_of_iv :
    (∀ (key iv1 iv2 : String) (r : CredentialRecord),
      (SecureTokenStorage.encrypt key iv1 r).encrypted =
        (SecureTokenStorage.encrypt key iv2 r).encrypted) ∧
    (SecureTokenStorage.encrypt "key4" "00112233" rec4).iv ≠
      (SecureTokenStorage.encrypt "key4" "8899aabb" rec4).iv ∧
    (SecureTokenStorage.encrypt "key4" "00112233" rec4).encrypted =
      (SecureTokenStorage.encrypt "key4" "8899aabb" rec4).encrypted := by
  refine ⟨fun key iv1 iv2 r => rfl, by decide, rfl⟩

/-! ## Claim C6 -/

/-- C6: a `saveTokens` that reports success followed by `loadTokens` under
the same configured key returns exactly the record that was saved: the
serialize-encrypt step composed with the decrypt-parse step is the
identity (stated, as the claim does, for well-formed records). -/
theorem save_load_roundtrip (key iv : String) (writeOk : Bool)
    (r : CredentialRecord) (st : StorageState)
    (hw : r.wellFormed = true)
    (hs : (SecureTokenStorage.saveTokens key iv writeOk r st).2 = true) :
    SecureTokenStorage.loadTokens key
      (SecureTokenStorage.saveTokens key iv writeOk r st).1 = some r := by
  cases writeOk with
  | false => simp [SecureTokenStorage.saveTokens] at hs
  | true =>
      simp [SecureTokenStorage.saveTokens, SecureTokenStorage.loadTokens,
        SecureTokenStorage.encrypt, SecureTokenStorage.decrypt,
        cipherEncrypt, cipherDecrypt]

/-- Fixture record for the C6 witness. -/
def rec6 : CredentialRecord :=
  { access_token := some "act6", refresh_token := some "ref6",
    expires_at := some 1700000060000 }

/-- Witness for C6 at a concrete record, key, IV and prior store. -/
theorem save_load_roundtrip_witness :
    SecureTokenStorage.loadTokens "key6"
      (SecureTokenStorage.saveTokens "key6" "iv6" true rec6 { file := none }).1 =
      some rec6 :=
  save_load_roundtrip "key6" "iv6" true rec6 { file := none }
    (by decide) (by decide)

/-! ## Claim C7 -/

/-- C7: `loadTokens` on an untouched store (no file) returns absent;
`loadTokens` after garbage bytes were written (content `JSON.parse`
rejects) returns absent; and when the stored envelope fails to decrypt,
`loadTokens` returns absent.  All branches are total — every failure is
caught inside `loadTokens`/`decrypt` and collapsed to `none`, never
raised to the caller. -/
theorem load_untouched_or_garbage_absent (key s : String) (env : Envelope)
    (hd : SecureTokenStorage.decrypt key env = none) :
    SecureTokenStorage.loadTokens key { file := none } = none ∧
    SecureTokenStorage.loadTokens key { file := some (FileContent.garbage s) } = none ∧
    SecureTokenStorage.loadTokens key { file := some (FileContent.envelope env) } = none := by
  refine ⟨rfl, rfl, ?_⟩
  simp [SecureTokenStorage.loadTokens, hd]

/-- Witness for C7: concrete garbage bytes and a concrete undecryptable
envelope. -/
theorem load_untouched_or_garbage_absent_witness :
    SecureTokenStorage.loadTokens "key7" { file := none } = none ∧
    SecureTokenStorage.loadTokens "key7"
      { file := some (FileContent.garbage "not json at all") } = none ∧
    SecureTokenStorage.loadTokens "key7"
      { file := some (FileContent.envelope
          { iv := "iv7", encrypted := Ciphertext.junk "deadbeef" }) } = none :=
  load_untouched_or_garbage_absent "key7" "not json at all"
    { iv := "iv7", encrypted := Ciphertext.junk "deadbeef" } (by decide)

/-! ## Claim C10 -/

/-- C10: decryption never reads the stored `iv`.  Replacing the `iv` field
of the persisted envelope with any other value, while leaving `encrypted`
intact, changes nothing: `decrypt` gives the same answer on the tampered
envelope, and a save followed by an IV tamper followed by a load still
returns the original record. -/
theorem load_ignores_stored_iv (key iv newIv : String) (r : CredentialRecord)
    (st : StorageState) (env : Envelope) :
    SecureTokenStorage.decrypt key { env with iv := newIv } =
      SecureTokenStorage.decrypt key env ∧
    SecureTokenStorage.loadTokens key
      (tamperIV newIv (SecureTokenStorage.saveTokens key iv true r st).1) = some r ∧
    SecureTokenStorage.loadTokens key
      (SecureTokenStorage.saveTokens key iv true r st).1 = some r := by
  refine ⟨rfl, ?_, ?_⟩ <;>
    simp [SecureTokenStorage.saveTokens, tamperIV, SecureTokenStorage.loadTokens,
      SecureTokenStorage.encrypt, SecureTokenStorage.decrypt,
      cipherEncrypt, cipherDecrypt]

/-! ## Claim C1 -/

/-- A previously persisted, fully populated record (C1 fixture). -/
def rec1 : CredentialRecord :=
  { access_token := some "act1", refresh_token := some "ref1",
    expires_at := some 1000000 }

/-- App state holding `rec1` persisted and no outstanding verifier
(C1 fixture). -/
def st1 : AppState :=
  { codeVerifier := none,
    storage := (SecureTokenStorage.saveTokens "key1" "iv1a" true rec1
      { file := none }).1 }

/-- A refresh response carrying an error field and no tokens, as the
upstream sends for an expired or revoked refresh token (C1 fixture). -/
def errResp1 : TokenResponse :=
  { error := some "invalid_grant",
    error_description := some "Refresh token is invalid or expired.",
    access_token := none, refresh_token := none, expires_in := none }

/-- C1 (code_bug evidence): when the refresh exchange returns a body with
an error field, `getValidAccessToken` performs no error check at all: it
does not fail, it returns the (absent) `access_token` of the error body,
and it OVERWRITES the previously persisted record with
`{ access_token: undefined, refresh_token: undefined, expires_at: NaN }`,
destroying the stored refresh token.  Evaluated at the failing input: the
prior store held `rec1`; after the call the store holds the empty record. -/
theorem refresh_error_field_clobbers_store :
    SecureTokenStorage.loadTokens "key1" st1.storage = some rec1 ∧
    (getValidAccessToken "key1" 2000000 2000000 (some errResp1) "iv1b" true st1).result =
      TokenResult.refreshed none ∧
    (getValidAccessToken "key1" 2000000 2000000 (some errResp1) "iv1b" true st1).networkCalls = 1 ∧
    SecureTokenStorage.loadTokens "key1"
      (getValidAccessToken "key1" 2000000 2000000 (some errResp1) "iv1b" true st1).state.storage =
      some { access_token := none, refresh_token := none, expires_at := none } := by
  refine ⟨rfl, rfl, rfl, rfl⟩

/-! ## Claim C2 -/

/-- A previously persisted, fully populated record (C2 fixture). -/
def rec2 : CredentialRecord :=
  { access_token := some "act2", refresh_token := some "ref2",
    expires_at := some 4000000 }

/-- App state holding `rec2` persisted (C2 fixture). -/
def st2 : AppState :=
  { codeVerifier := none,
    storage := (SecureTokenStorage.saveTokens "key2" "iv2a" true rec2
      { file := none }).1 }

/-- A refresh response with an error field and none of the token fields
(C2 fixture). -/
def errResp2 : TokenResponse :=
  { error := some "invalid_request", error_description := some "bad request",
    access_token := none, refresh_token := none, expires_in := none }

/-- C2 (code_bug evidence): the refresh path of `getValidAccessToken`
validates nothing before calling `saveTokens`, so a record with all three
fields missing is passed to save and persisted: after the call, `load`
returns a record that is not fully populated (`wellFormed = false`),
violating the claimed invariant that every successful load is either
absent or fully populated. -/
theorem refresh_path_persists_partial_record :
    SecureTokenStorage.loadTokens "key2"
      (getValidAccessToken "key2" 5000000 5000000 (some errResp2) "iv2b" true st2).state.storage =
      some { access_token := none, refresh_token := none, expires_at := none } ∧
    CredentialRecord.wellFormed
      { access_token := none, refresh_token := none, expires_at := none } = false := by
  refine ⟨rfl, rfl⟩

/-! ## Claim C3 -/

/-- App state with an outstanding PKCE verifier (C3 fixture). -/
def st3 : AppState := { codeVerifier := some "verifier3", storage := { file := none } }

/-- A token response carrying an error field (C3 fixture). -/
def errResp3 : TokenResponse :=
  { error := some "access_denied", error_description := some "user denied",
    access_token := none, refresh_token := none, expires_in := none }

/-- C3 counterexample: an invocation of the callback handler that starts
with an outstanding verifier and hits the `UpstreamRejected` branch
returns WITHOUT clearing the verifier — it is still outstanding
afterwards, contradicting "the verifier is cleared on every outcome". -/
theorem callback_rejected_keeps_verifier :
    (handleCallback "key3" (some "code3") (some errResp3) 0 "iv3" true st3).result =
      CallbackResult.upstreamRejected (some "access_denied") (some "user denied") ∧
    (handleCallback "key3" (some "code3") (some errResp3) 0 "iv3" true st3).state.codeVerifier =
      some "verifier3" := by
  refine ⟨rfl, rfl⟩

/-- C3 amended: the callback handler clears the verifier exactly on the
success outcome — including when persistence fails, since `saveTokens`
swallows write errors — and on every failure outcome (`MissingCode`,
`MissingVerifier`, `UpstreamRejected`, `UpstreamMalformed`, a thrown
exchange) the verifier slot is left exactly as it was. -/
theorem callback_verifier_cleared_iff_success (encKey : String)
    (code : Option String) (resp : Option TokenResponse) (now : Int)
    (iv : String) (writeOk : Bool) (st : AppState) :
    (handleCallback encKey code resp now iv writeOk st).state.codeVerifier =
      (if (handleCallback encKey code resp now iv writeOk st).result =
          CallbackResult.success
       then none else st.codeVerifier) :=
  callback_codeVerifier_eq encKey code resp now iv writeOk st

/-! ## Claim C5 -/

/-- A persisted record whose `expires_at` is `now + 5000` for
`now = 1000000` (C5 fixture). -/
def rec5 : CredentialRecord :=
  { access_token := some "act5", refresh_token := some "ref5",
    expires_at := some 1005000 }

/-- App state holding `rec5` persisted (C5 fixture). -/
def st5 : AppState :=
  { codeVerifier := none,
    storage := (SecureTokenStorage.saveTokens "key5" "iv5a" true rec5
      { file := none }).1 }

/-- A well-formed refresh response (C5 fixture). -/
def freshResp5 : TokenResponse :=
  { error := none, error_description := none,
    access_token := some "newact5", refresh_token := some "newref5",
    expires_in := some 86400 }

/-- C5 counterexample: with `expires_at = now + 5000` (milliseconds) the
record is already inside the 60-second safety margin
(`now < expires_at - 60000` is false), so `getValidAccessToken` called
immediately does NOT return the cached token with zero network calls: it
performs one refresh exchange straight away. -/
theorem five_second_expiry_refreshes_immediately :
    SecureTokenStorage.loadTokens "key5" st5.storage = some rec5 ∧
    rec5.expires_at = some (1000000 + 5000) ∧
    (getValidAccessToken "key5" 1000000 1000000 (some freshResp5) "iv5b" true st5).networkCalls = 1 ∧
    (getValidAccessToken "key5" 1000000 1000000 (some freshResp5) "iv5b" true st5).result =
      TokenResult.refreshed (some "newact5") := by
  refine ⟨rfl, rfl, rfl, rfl⟩

/-- C5 amended: for a persisted record `r`, `getValidAccessToken` returns
the cached `access_token` with zero network calls exactly when
`now < expires_at - 60000` (the 60-second margin); otherwise it performs
exactly one refresh exchange.  In particular a record with
`expires_at = now + 5000` is already within the margin, so even an
immediate call performs one refresh exchange. -/
theorem cached_iff_inside_margin (encKey : String) (now now2 : Int)
    (refreshResp : Option TokenResponse) (iv : String) (writeOk : Bool)
    (st : AppState) (r : CredentialRecord)
    (h : SecureTokenStorage.loadTokens encKey st.storage = some r) :
    (notExpiredYet r.expires_at now = true →
      getValidAccessToken encKey now now2 refreshResp iv writeOk st =
        { state := st, result := TokenResult.cached r.access_token,
          networkCalls := 0 }) ∧
    (notExpiredYet r.expires_at now = false →
      (getValidAccessToken encKey now now2 refreshResp iv writeOk st).networkCalls = 1) := by
  constructor
  · intro ht
    unfold getValidAccessToken
    rw [h]
    simp [ht]
  · intro hf
    unfold getValidAccessToken
    rw [h]
    simp only [hf]
    cases refreshResp <;> simp

/-- Fixture record for the C5 witness: expiry comfortably beyond the
margin. -/
def rec5w : CredentialRecord :=
  { access_token := some "act5w", refresh_token := some "ref5w",
    expires_at := some 2000000 }

/-- App state holding `rec5w` persisted (C5 witness fixture). -/
def st5w : AppState :=
  { codeVerifier := none,
    storage := (SecureTokenStorage.saveTokens "key5w" "iv5w" true rec5w
      { file := none }).1 }

/-- Witness for the amended C5 at a concrete state: with
`now = 1000000 < 2000000 - 60000` the cached token is returned with zero
network calls. -/
theorem cached_iff_inside_margin_witness :
    getValidAccessToken "key5w" 1000000 1000000 none "iv5x" true st5w =
      { state := st5w, result := TokenResult.cached (some "act5w"),
        networkCalls := 0 } :=
  (cached_iff_inside_margin "key5w" 1000000 1000000 none "iv5x" true st5w rec5w
    (by decide)).1 (by decide)

/-- With a truthy `code` but an empty verifier slot, the callback handler
short-circuits to the 400 "No code verifier found" response, leaving the
state unchanged. -/
theorem callback_no_verifier_missingVerifier (encKey : String)
    (code : Option String) (resp : Option TokenResponse) (now : Int)
    (iv : String) (writeOk : Bool) (st : AppState)
    (hc : truthyStr code = true) (hv : st.codeVerifier = none) :
    handleCallback encKey code resp now iv writeOk st =
      { state := st, result := CallbackResult.missingVerifier,
        sentVerifier := none } := by
  unfold handleCallback
  rw [hc, hv, if_neg (by decide : ¬((true : Bool) = false)),
    if_pos (by rfl : truthyStr none = false)]

/-! ## Claim C8 -/

/-- C8: a falsy `code` (absent query parameter, or the empty string) fails
with `MissingCode`; a truthy `code` with no outstanding verifier fails
with `MissingVerifier`; the two outcomes are distinguishable; and after a
successful callback (which clears the verifier) a second callback with the
same code fails with `MissingVerifier`. -/
theorem callback_precondition_errors (encKey : String) (code : Option String)
    (resp resp2 : Option TokenResponse) (now now2 : Int) (iv iv2 : String)
    (ok ok2 : Bool) (st : AppState) :
    (handleCallback encKey none resp now iv ok st).result =
      CallbackResult.missingCode ∧
    (handleCallback encKey (some "") resp now iv ok st).result =
      CallbackResult.missingCode ∧
    (truthyStr code = true → st.codeVerifier = none →
      (handleCallback encKey code resp now iv ok st).result =
        CallbackResult.missingVerifier) ∧
    CallbackResult.missingCode ≠ CallbackResult.missingVerifier ∧
    ((handleCallback encKey code resp now iv ok st).result =
        CallbackResult.success →
      (handleCallback encKey code resp2 now2 iv2 ok2
          (handleCallback encKey code resp now iv ok st).state).result =
        CallbackResult.missingVerifier) := by
  refine ⟨rfl, rfl, ?_, by simp, ?_⟩
  · intro hc hv
    rw [callback_no_verifier_missingVerifier encKey code resp now iv ok st hc hv]
  · intro h
    have hc : truthyStr code = true :=
      callback_success_truthy_code encKey code resp now iv ok st h
    have hv : (handleCallback encKey code resp now iv ok st).state.codeVerifier = none := by
      rw [callback_codeVerifier_eq encKey code resp now iv ok st, h]
      simp
    rw [callback_no_verifier_missingVerifier encKey code resp2 now2 iv2 ok2
      (handleCallback encKey code resp now iv ok st).state hc hv]

/-- A well-formed authorization-code exchange response (C8 witness
fixture). -/
def okResp8 : TokenResponse :=
  { error := none, error_description := none,
    access_token := some "act8", refresh_token := some "ref8",
    expires_in := some 86400 }

/-- App state with an outstanding verifier (C8 witness fixture). -/
def st8 : AppState := { codeVerifier := some "verifier8", storage := { file := none } }

/-- Witness for C8: a concrete first callback succeeds, and the second
callback with the very same code fails with `MissingVerifier`. -/
theorem callback_precondition_errors_witness :
    (handleCallback "key8" (some "code8") (some okResp8) 1000 "iv8" true st8).result =
      CallbackResult.success ∧
    (handleCallback "key8" (some "code8") (some okResp8) 2000 "iv8b" true
        (handleCallback "key8" (some "code8") (some okResp8) 1000 "iv8" true st8).state).result =
      CallbackResult.missingVerifier :=
  ⟨rfl,
    (callback_precondition_errors "key8" (some "code8") (some okResp8)
      (some okResp8) 1000 2000 "iv8" "iv8b" true true st8).2.2.2.2 rfl⟩

/-! ## Claim C9 -/

/-- State after a sequence of `/auth/login` requests, in order. -/
def loginFold (vs : List String) (st : AppState) : AppState :=
  vs.foldl (fun s v => (handleLogin v s).1) st

/-- C9: the verifier slot is a single cell that every `/auth/login`
request overwrites: after any sequence of logins the outstanding verifier
is exactly the one generated by the most recent login, and a subsequent
callback (with a well-formed code) sends exactly that verifier as the
`code_verifier` field of the token request — every earlier unconsumed
verifier is invalidated. -/
theorem latest_login_verifier_wins (encKey : String) (st : AppState)
    (vs : List String) (v : String) (code : Option String)
    (resp : Option TokenResponse) (now : Int) (iv : String) (writeOk : Bool)
    (hc : truthyStr code = true) (hv : v ≠ "") :
    (loginFold (vs ++ [v]) st).codeVerifier = some v ∧
    (handleCallback encKey code resp now iv writeOk
      (loginFold (vs ++ [v]) st)).sentVerifier = some v := by
  have h1 : (loginFold (vs ++ [v]) st).codeVerifier = some v := by
    simp [loginFold, List.foldl_append, handleLogin, generatePKCE]
  refine ⟨h1, ?_⟩
  have h2 : truthyStr (some v) = true := by simp [truthyStr, hv]
  unfold handleCallback
  rw [h1, hc, h2, if_neg (by decide : ¬((true : Bool) = false)),
    if_neg (by decide : ¬((true : Bool) = false))]
  cases resp with
  | none => rfl
  | some data =>
      repeat' split
      all_goals rfl

/-- App state with a stale verifier from before the login sequence
(C9 witness fixture). -/
def st9 : AppState := { codeVerifier := some "old9", storage := { file := none } }

/-- Witness for C9 at a concrete login sequence: after logins generating
verifiers "w1", "w2", "w3" the outstanding verifier is "w3", and the
subsequent callback sends exactly "w3" upstream. -/
theorem latest_login_verifier_wins_witness :
    (loginFold (["w1", "w2"] ++ ["w3"]) st9).codeVerifier = some "w3" ∧
    (handleCallback "key9" (some "code9") none 0 "iv9" true
      (loginFold (["w1", "w2"] ++ ["w3"]) st9)).sentVerifier = some "w3" :=
  latest_login_verifier_wins "key9" st9 ["w1", "w2"] "w3" (some "code9") none
    0 "iv9" true (by decide) (by decide)
